import Mathlib

/-!
# ShopFlow — embedding of the checkout validator, order writer and cart reducer

A shallow embedding of the checkout-related logic of the ShopFlow storefront:

* `POST` / `validateLoop` embed the `/api/checkout/validate` route handler
  (auth check, empty-cart check, per-item sanity check, product lookup,
  stock check, total accumulation, final rounding).  Besides the response,
  the embedding returns the ordered list of product ids actually fetched
  from the products collection, so that claims about *when* data access
  happens can be stated.
* `handleSubmit` embeds the order-writing part of the checkout client:
  validate, then create an order row carrying the server total and one
  line-item row per cart entry carrying the cart entry's snapshot price.
* `reducer` embeds the cart context reducer (ADD / REMOVE / UPDATE_QTY /
  CLEAR / HYDRATE) with its client-side stock clamping.

Machine numbers (JS `number`, SQL `numeric(10,2)`) are modelled as `ℚ`;
`Number.isInteger q` is `q.den = 1`; JS `Math.round` is `⌊q + 1/2⌋`.
-/

namespace ShopFlow

/-- A row of the `products` collection: `id, name, price, stock`
(the columns selected by the validator).  `price ≥ 0` and `stock ≥ 0`
are database CHECK constraints, not part of the shape. -/
structure Product where
  id    : String
  name  : String
  price : ℚ
  stock : ℤ
deriving DecidableEq, Repr

/-- The products collection, as visible to the validator's point lookups. -/
abbrev DB := List Product

/-- `.eq(id, pid).single()`: the unique row with the given id (ids are a
primary key; with duplicates this returns the first match). -/
def findProduct (db : DB) (pid : String) : Option Product :=
  db.find? (fun p => p.id == pid)

/-- One entry of the request body: `{ product_id, quantity }`. -/
structure CartItemPayload where
  product_id : String
  quantity   : ℚ
deriving DecidableEq, Repr

/-- JS `Math.round`: round to the nearest integer, halves toward `+∞`,
i.e. `⌊q + 1/2⌋` (stated via the executable `Rat.floor`). -/
def mathRound (q : ℚ) : ℤ := (q + 1 / 2).floor

/-- `Math.round(serverTotal * 100) / 100`: the validator's final rounding
to two decimal places. -/
def roundTo2 (q : ℚ) : ℚ := ((mathRound (q * 100) : ℤ) : ℚ) / 100

/-- The per-entry sanity check of the validator:
`product_id` truthy, quantity an integer, quantity ≥ 1. -/
def itemWellFormed (item : CartItemPayload) : Bool :=
  !(item.product_id == "") && (item.quantity.den == 1) && decide (1 ≤ item.quantity)

/-- The validator's possible responses, with the data each branch of the
route handler puts into the JSON body. -/
inductive VResult where
  /-- `200 { valid: true, serverTotal }` -/
  | ok (serverTotal : ℚ)
  /-- `401 "Authentication required."` -/
  | errAuth
  /-- `400 "Cart is empty."` -/
  | errEmpty
  /-- `400 "Invalid item in cart."` -/
  | errInvalid
  /-- `404 "Product not found: <id>"` -/
  | errNotFound (productId : String)
  /-- `409 "Insufficient stock for <name>. Available: <a>, Requested: <r>"` -/
  | errStock (name : String) (available : ℤ) (requested : ℚ)
deriving DecidableEq, Repr

/-- The HTTP status attached to each response by the route handler. -/
def VResult.status : VResult → Nat
  | .ok _           => 200
  | .errAuth        => 401
  | .errEmpty       => 400
  | .errInvalid     => 400
  | .errNotFound _  => 404
  | .errStock _ _ _ => 409

/-- Whether the response carries `valid: true`. -/
def VResult.isValid : VResult → Bool
  | .ok _ => true
  | _     => false

/-- The per-item validation loop of the route handler, carrying the running
`serverTotal`.  The second component is the trace of product ids fetched
from the products collection, in order. -/
def validateLoop (db : DB) : List CartItemPayload → ℚ → VResult × List String
  | [], serverTotal => (VResult.ok (roundTo2 serverTotal), [])
  | item :: rest, serverTotal =>
    if itemWellFormed item = false then
      (VResult.errInvalid, [])
    else
      match findProduct db item.product_id with
      | none => (VResult.errNotFound item.product_id, [item.product_id])
      | some product =>
        if (product.stock : ℚ) < item.quantity then
          (VResult.errStock product.name product.stock item.quantity, [item.product_id])
        else
          let r := validateLoop db rest (serverTotal + product.price * item.quantity)
          (r.1, item.product_id :: r.2)

/-- `POST /api/checkout/validate`: auth check, empty-cart check, then the
per-item loop starting from total `0`.  `user` is the session's identity,
`none` when unauthenticated.  Second component: the product-collection
accesses performed. -/
def POST (db : DB) (user : Option String) (items : List CartItemPayload) :
    VResult × List String :=
  match user with
  | none => (VResult.errAuth, [])
  | some _ =>
    if items.isEmpty then (VResult.errEmpty, [])
    else validateLoop db items 0

/-- The specification's formulation of one entry's contribution:
the stored price of the referenced product times the requested quantity. -/
def storedSubtotal (db : DB) (item : CartItemPayload) : ℚ :=
  match findProduct db item.product_id with
  | some p => p.price * item.quantity
  | none   => 0

/-- The specification's formulation of the exact total:
sum over the list of stored price × requested quantity. -/
def specListTotal (db : DB) (items : List CartItemPayload) : ℚ :=
  (items.map (storedSubtotal db)).sum

/-- An entry that passes every per-item check: well-formed, its product
exists, and the requested quantity is within stock. -/
def entryOK (db : DB) (item : CartItemPayload) : Bool :=
  itemWellFormed item &&
    match findProduct db item.product_id with
    | some p => decide (item.quantity ≤ (p.stock : ℚ))
    | none   => false

/-- The specification's rounding mode "half away from zero",
as an integer-valued rounding of a rational. -/
def roundHalfAwayFromZero (q : ℚ) : ℤ :=
  if q < 0 then -(-q + 1 / 2).floor else (q + 1 / 2).floor

/-- One cart entry of the cart context: a product snapshot plus a quantity. -/
structure CartItem where
  product  : Product
  quantity : ℚ
deriving DecidableEq, Repr

/-- The cart context's action union.  `ADD`'s quantity is optional
(`action.quantity ?? 1`). -/
inductive CartAction where
  | ADD (product : Product) (quantity : Option ℚ)
  | REMOVE (productId : String)
  | UPDATE_QTY (productId : String) (quantity : ℚ)
  | CLEAR
  | HYDRATE (items : List CartItem)

/-- The cart context reducer.  `ADD` merges into an existing entry for the
same product id (updating every matching entry) or appends a new one, in
both cases clamping the quantity with `Math.min` against the incoming
product's stock; `UPDATE_QTY` with a non-positive quantity removes the
entry entirely. -/
def reducer (state : List CartItem) : CartAction → List CartItem
  | .ADD product quantity =>
    let addQty := quantity.getD 1
    match state.find? (fun i => i.product.id == product.id) with
    | some _ =>
      state.map (fun i =>
        if i.product.id == product.id then
          { i with quantity := min (i.quantity + addQty) (product.stock : ℚ) }
        else i)
    | none =>
      state ++ [{ product := product, quantity := min addQty (product.stock : ℚ) }]
  | .REMOVE productId =>
    state.filter (fun i => !(i.product.id == productId))
  | .UPDATE_QTY productId quantity =>
    if quantity ≤ 0 then
      state.filter (fun i => !(i.product.id == productId))
    else
      state.map (fun i =>
        if i.product.id == productId then
          { i with quantity := min quantity (i.product.stock : ℚ) }
        else i)
  | .CLEAR => []
  | .HYDRATE items => items

/-- The quantity the cart holds for a product id: the first matching
entry's quantity, `0` when no entry matches. -/
def cartQty (items : List CartItem) (productId : String) : ℚ :=
  match items.find? (fun i => i.product.id == productId) with
  | some i => i.quantity
  | none   => 0

/-- A row of the `orders` collection as inserted by the checkout client. -/
structure Order where
  user_id      : String
  total_amount : ℚ
  status       : String
deriving DecidableEq, Repr

/-- A row of the `order_items` collection as inserted by the checkout
client. -/
structure OrderItemRow where
  product_id : String
  quantity   : ℚ
  price      : ℚ
deriving DecidableEq, Repr

/-- The order-writing flow of the checkout client's submit handler:
validate the cart server-side, then on success insert one order row whose
`total_amount` is the returned `serverTotal` and one line-item row per cart
entry whose `price` is the cart entry's product-snapshot price.  Returns
`none` when validation fails (no rows are written). -/
def handleSubmit (db : DB) (user : String) (items : List CartItem) :
    Option (Order × List OrderItemRow) :=
  match (POST db (some user)
      (items.map (fun i => { product_id := i.product.id, quantity := i.quantity }))).1 with
  | VResult.ok serverTotal =>
    some ({ user_id := user, total_amount := serverTotal, status := "pending" },
          items.map (fun i =>
            { product_id := i.product.id, quantity := i.quantity, price := i.product.price }))
  | _ => none

/-- The sum of `price × quantity` over a list of order line items. -/
def lineItemsTotal (rows : List OrderItemRow) : ℚ :=
  (rows.map (fun r => r.price * r.quantity)).sum

/-- Test fixture: a one-product collection (price 100, stock 5). -/
def db0 : DB := [{ id := "p1", name := "Widget", price := 100, stock := 5 }]

/-- Test fixture: a product with stock 3. -/
def stock3Product : Product := { id := "p3", name := "Gadget", price := 10, stock := 3 }

/-- Test fixture: a product with stock 0. -/
def zeroStockProduct : Product := { id := "p0", name := "Gone", price := 2, stock := 0 }

/-- Test fixture: a cart holding product `p1` with a stale snapshot price
of 50, while `db0` stores price 100 for `p1`. -/
def staleCart : List CartItem :=
  [{ product := { id := "p1", name := "Widget", price := 50, stock := 5 }, quantity := 1 }]

/-! ## Helper lemmas -/

/-- The executable `Rat.floor` agrees with Mathlib's `⌊·⌋`. -/
theorem floor_eq_intFloor (q : ℚ) : q.floor = ⌊q⌋ := by
  rw [Rat.floor_def', Rat.floor_def]

/-- `mathRound` is `⌊q + 1/2⌋` in Mathlib's floor notation. -/
theorem mathRound_eq (q : ℚ) : mathRound q = ⌊q + 1 / 2⌋ := by
  rw [mathRound, floor_eq_intFloor]

theorem specListTotal_nil (db : DB) : specListTotal db [] = 0 := rfl

theorem specListTotal_cons (db : DB) (it : CartItemPayload) (l : List CartItemPayload) :
    specListTotal db (it :: l) = storedSubtotal db it + specListTotal db l := by
  simp [specListTotal]

/-- Unpacking `entryOK`: the entry is well-formed, its product exists, and
the requested quantity is within stock. -/
theorem entryOK_elim {db : DB} {it : CartItemPayload} (h : entryOK db it = true) :
    itemWellFormed it = true ∧
      ∃ p, findProduct db it.product_id = some p ∧ it.quantity ≤ (p.stock : ℚ) := by
  rw [entryOK, Bool.and_eq_true] at h
  refine ⟨h.1, ?_⟩
  cases hp : findProduct db it.product_id with
  | none => rw [hp] at h; simp at h
  | some p =>
    rw [hp] at h
    exact ⟨p, rfl, by simpa using h.2⟩

/-- Running the loop over a fully passing leading segment: it accumulates
that segment's stored subtotals, fetches exactly its product ids, and
continues with the rest. -/
theorem validateLoop_append_ok (db : DB) (pre rest : List CartItemPayload) (acc : ℚ)
    (h : ∀ it ∈ pre, entryOK db it = true) :
    validateLoop db (pre ++ rest) acc =
      ((validateLoop db rest (acc + specListTotal db pre)).1,
       pre.map CartItemPayload.product_id ++
         (validateLoop db rest (acc + specListTotal db pre)).2) := by
  induction pre generalizing acc with
  | nil => simp [specListTotal_nil]
  | cons it pre ih =>
    obtain ⟨hwf, p, hp, hle⟩ := entryOK_elim (h it (List.mem_cons_self it pre))
    have hrest : ∀ x ∈ pre, entryOK db x = true :=
      fun x hx => h x (List.mem_cons_of_mem it hx)
    have hnotlt : ¬ ((p.stock : ℚ) < it.quantity) := not_lt.mpr hle
    simp only [List.cons_append, validateLoop, hwf, Bool.true_eq_false, if_false, hp,
      if_neg hnotlt, List.append_eq]
    rw [ih _ hrest]
    have hacc : acc + p.price * it.quantity + specListTotal db pre
        = acc + specListTotal db (it :: pre) := by
      rw [specListTotal_cons, storedSubtotal, hp]; ring
    rw [hacc]
    simp

theorem isEmpty_false (pre rest : List CartItemPayload) (x : CartItemPayload) :
    (pre ++ x :: rest).isEmpty = false := by
  cases pre <;> simp

/-- On an authenticated request in which every entry passes every check,
the endpoint returns `valid: true` with the rounded exact total, having
fetched every entry's product. -/
theorem POST_ok_eval (db : DB) (user : String) (items : List CartItemPayload)
    (hne : items ≠ []) (h : ∀ it ∈ items, entryOK db it = true) :
    POST db (some user) items
      = (VResult.ok (roundTo2 (specListTotal db items)),
         items.map CartItemPayload.product_id) := by
  rw [POST]
  rw [if_neg (by simp [List.isEmpty_iff, hne])]
  have heq := validateLoop_append_ok db items [] 0 h
  rw [List.append_nil] at heq
  rw [heq]
  simp [validateLoop, zero_add]

/-- The loop never reaches a malformed entry's data access: with all of
`pre` well-formed and `mal` malformed, the result is not `valid` and the
fetch trace is a prefix of `pre`'s product ids. -/
theorem validateLoop_stops_at_malformed (db : DB) (pre rest : List CartItemPayload)
    (mal : CartItemPayload) (hmal : itemWellFormed mal = false) :
    ∀ acc, (∀ it ∈ pre, itemWellFormed it = true) →
      (validateLoop db (pre ++ mal :: rest) acc).1.isValid = false ∧
      ∃ n ≤ pre.length,
        (validateLoop db (pre ++ mal :: rest) acc).2
          = (pre.map CartItemPayload.product_id).take n := by
  induction pre with
  | nil =>
    intro acc _
    simp only [List.nil_append, validateLoop, hmal, if_pos rfl]
    exact ⟨rfl, 0, Nat.le_refl 0, rfl⟩
  | cons it pre ih =>
    intro acc h
    have hwf : itemWellFormed it = true := h it (List.mem_cons_self it pre)
    have hpre : ∀ x ∈ pre, itemWellFormed x = true :=
      fun x hx => h x (List.mem_cons_of_mem it hx)
    cases hp : findProduct db it.product_id with
    | none =>
      simp only [List.cons_append, validateLoop, hwf, Bool.true_eq_false, if_false, hp]
      exact ⟨rfl, 1, by simp, by simp⟩
    | some p =>
      by_cases hst : (p.stock : ℚ) < it.quantity
      · simp only [List.cons_append, validateLoop, hwf, Bool.true_eq_false, if_false, hp,
          if_pos hst]
        exact ⟨rfl, 1, by simp, by simp⟩
      · simp only [List.cons_append, validateLoop, hwf, Bool.true_eq_false, if_false, hp,
          if_neg hst, List.append_eq]
        obtain ⟨h1, n, hn, h2⟩ := ih (acc + p.price * it.quantity) hpre
        refine ⟨h1, n + 1, by simpa using hn, ?_⟩
        simp [h2]

/-! ## Claim theorems -/

/-- C1 counterexample: the empty item list vacuously satisfies every
per-entry hypothesis of the claim (each entry well-formed, found, within
stock), yet the validator returns the 400 "Cart is empty." error, not
`valid: true`. -/
theorem validate_empty_list_not_ok :
    ([] : List CartItemPayload).all (entryOK db0) = true ∧
    (POST db0 (some "u") []).1 = VResult.errEmpty ∧
    ((POST db0 (some "u") []).1).isValid = false := ⟨rfl, rfl, rfl⟩

/-- C1 (amended): for every authenticated request with a NON-EMPTY item
list in which every entry has a non-empty product reference and a positive
integer quantity, references an existing product, and requests at most the
current stock, the validator returns `valid: true` with `serverTotal` the
sum of stored price × requested quantity rounded to two decimals. -/
theorem validate_ok_returns_rounded_server_total (db : DB) (user : String)
    (items : List CartItemPayload) (hne : items ≠ [])
    (h : ∀ it ∈ items, entryOK db it = true) :
    POST db (some user) items
      = (VResult.ok (roundTo2 (specListTotal db items)),
         items.map CartItemPayload.product_id) :=
  POST_ok_eval db user items hne h

/-- C1 witness: one entry for `p1` (price 100, stock 5) with quantity 2
validates to `serverTotal = 200`. -/
theorem validate_ok_returns_rounded_server_total_witness :
    POST db0 (some "u") [⟨"p1", 2⟩] = (VResult.ok 200, ["p1"]) := by
  have h := validate_ok_returns_rounded_server_total db0 "u" [⟨"p1", 2⟩]
    (by simp) (by decide)
  have hval : roundTo2 (specListTotal db0 [⟨"p1", 2⟩]) = 200 := by
    rw [roundTo2, mathRound_eq]
    norm_num [specListTotal, storedSubtotal, findProduct, db0]
  rw [h, hval]
  rfl

/-- C2: evaluation of the order writer at a failing input.  The cart holds
`p1` with a stale snapshot price of 50 while the database stores price 100;
the created order carries `total_amount = 100` (server-computed) but its
single line item records the client-submitted snapshot price 50, so the
order total does not equal the sum of line-item price × quantity and the
recorded unit price is not the server-read price. -/
theorem order_total_diverges_from_line_items_on_stale_cart :
    handleSubmit db0 "u" staleCart
      = some ({ user_id := "u", total_amount := 100, status := "pending" },
              [{ product_id := "p1", quantity := 1, price := 50 }]) ∧
    lineItemsTotal [{ product_id := "p1", quantity := 1, price := 50 }] = 50 ∧
    (100 : ℚ) ≠ 50 := by
  refine ⟨?_, ?_, by norm_num⟩
  · have hpost : POST db0 (some "u")
        (staleCart.map (fun i => { product_id := i.product.id, quantity := i.quantity }))
        = (VResult.ok (roundTo2 (specListTotal db0 [⟨"p1", 1⟩])), ["p1"]) := by
      have h := POST_ok_eval db0 "u" [⟨"p1", 1⟩] (by simp) (by decide)
      simpa [staleCart] using h
    have hval : roundTo2 (specListTotal db0 [⟨"p1", 1⟩]) = 100 := by
      rw [roundTo2, mathRound_eq]
      norm_num [specListTotal, storedSubtotal, findProduct, db0]
    rw [handleSubmit, hpost, hval]
    rfl
  · norm_num [lineItemsTotal]

/-- C3 counterexample: the list `[⟨"", 1⟩, ⟨"ghost", 1⟩]` contains an entry
referencing the nonexistent product id "ghost", but validation fails with
the 400 "Invalid item in cart." signal for the earlier malformed entry, not
with a not-found signal naming "ghost". -/
theorem validate_not_found_shadowed_by_earlier_failure :
    findProduct db0 "ghost" = none ∧
    (POST db0 (some "u") [⟨"", 1⟩, ⟨"ghost", 1⟩]).1 = VResult.errInvalid ∧
    (POST db0 (some "u") [⟨"", 1⟩, ⟨"ghost", 1⟩]).1 ≠ VResult.errNotFound "ghost" := by
  refine ⟨rfl, rfl, ?_⟩
  intro hcontra
  exact VResult.noConfusion hcontra

/-- C3 (amended): for an entry whose product id does not exist and whose
EARLIER entries are all well-formed, existing and within stock, validation
fails with a not-found signal naming that missing id, whatever the entry's
position; no partial result is returned. -/
theorem validate_not_found_names_missing_id (db : DB) (user : String)
    (pre rest : List CartItemPayload) (mal : CartItemPayload)
    (h : ∀ it ∈ pre, entryOK db it = true)
    (hwf : itemWellFormed mal = true)
    (hmiss : findProduct db mal.product_id = none) :
    (POST db (some user) (pre ++ mal :: rest)).1 = VResult.errNotFound mal.product_id := by
  rw [POST, if_neg (by simp [isEmpty_false])]
  rw [validateLoop_append_ok db pre (mal :: rest) 0 h]
  simp only [validateLoop, hwf, Bool.true_eq_false, if_false, hmiss]

/-- C3 witness: a missing id in second position (after a passing entry)
yields a not-found signal naming it. -/
theorem validate_not_found_names_missing_id_witness :
    (POST db0 (some "u") [⟨"p1", 1⟩, ⟨"ghost", 3⟩]).1 = VResult.errNotFound "ghost" :=
  validate_not_found_names_missing_id db0 "u" [⟨"p1", 1⟩] [] ⟨"ghost", 3⟩
    (by decide) (by decide) (by decide)

/-- C4 (confirmed): when every earlier entry is well-formed, existing and
within stock, and an entry's requested quantity exceeds its product's
stock, validation fails with a stock-conflict signal naming the product,
the available quantity and the requested quantity; the fetch trace shows
processing stopped at that entry (no later conflicts aggregated, no later
totals accumulated). -/
theorem validate_stock_conflict_stops_at_first (db : DB) (user : String)
    (pre rest : List CartItemPayload) (mal : CartItemPayload) (p : Product)
    (h : ∀ it ∈ pre, entryOK db it = true)
    (hwf : itemWellFormed mal = true)
    (hp : findProduct db mal.product_id = some p)
    (hconf : (p.stock : ℚ) < mal.quantity) :
    POST db (some user) (pre ++ mal :: rest)
      = (VResult.errStock p.name p.stock mal.quantity,
         pre.map CartItemPayload.product_id ++ [mal.product_id]) := by
  rw [POST, if_neg (by simp [isEmpty_false])]
  rw [validateLoop_append_ok db pre (mal :: rest) 0 h]
  simp only [validateLoop, hwf, Bool.true_eq_false, if_false, hp, if_pos hconf]

/-- C4 witness: requesting 10 of `p1` (stock 5) after a passing entry and
before a further conflicting entry yields the 409 signal naming "Widget",
available 5, requested 10, with no fetch of the later entry. -/
theorem validate_stock_conflict_stops_at_first_witness :
    POST db0 (some "u") [⟨"p1", 2⟩, ⟨"p1", 10⟩, ⟨"p1", 99⟩]
      = (VResult.errStock "Widget" 5 10, ["p1", "p1"]) := by
  have h := validate_stock_conflict_stops_at_first db0 "u" [⟨"p1", 2⟩] [⟨"p1", 99⟩]
    ⟨"p1", 10⟩ { id := "p1", name := "Widget", price := 100, stock := 5 }
    (by decide) (by decide) (by decide) (by norm_num)
  simpa using h

/-- C5 counterexample: the list `[⟨"p1", 1⟩, ⟨"", 1⟩]` contains a
malformed entry, and the request is rejected — but only after the product
collection was accessed for the earlier well-formed entry (`p1` appears in
the fetch trace), so the rejection does not precede every data access. -/
theorem validate_data_access_before_malformed_rejection :
    itemWellFormed ⟨"", 1⟩ = false ∧
    (POST db0 (some "u") [⟨"p1", 1⟩, ⟨"", 1⟩]).1 = VResult.errInvalid ∧
    (POST db0 (some "u") [⟨"p1", 1⟩, ⟨"", 1⟩]).2 = ["p1"] := by
  refine ⟨rfl, ?_, ?_⟩ <;> decide

/-- C5 (amended): for every authenticated request whose item list has a
malformed entry preceded only by well-formed entries, the request is
rejected, and the product-collection accesses form a prefix of the
preceding entries' ids — so no data access happens for the malformed entry
itself or anything after it. -/
theorem validate_no_data_access_at_or_after_malformed (db : DB) (user : String)
    (pre rest : List CartItemPayload) (mal : CartItemPayload)
    (h : ∀ it ∈ pre, itemWellFormed it = true)
    (hmal : itemWellFormed mal = false) :
    (POST db (some user) (pre ++ mal :: rest)).1.isValid = false ∧
    ∃ n ≤ pre.length,
      (POST db (some user) (pre ++ mal :: rest)).2
        = (pre.map CartItemPayload.product_id).take n := by
  rw [POST, if_neg (by simp [isEmpty_false])]
  exact validateLoop_stops_at_malformed db pre rest mal hmal 0 h

/-- C5 witness: with one well-formed entry before a malformed one, the
request is rejected and the fetch trace is a prefix of `["p1"]`. -/
theorem validate_no_data_access_at_or_after_malformed_witness :
    (POST db0 (some "u") [⟨"p1", 1⟩, ⟨"", 1⟩]).1.isValid = false ∧
    ∃ n ≤ 1,
      (POST db0 (some "u") [⟨"p1", 1⟩, ⟨"", 1⟩]).2 = (["p1"] : List String).take n := by
  have h := validate_no_data_access_at_or_after_malformed db0 "u" [⟨"p1", 1⟩] []
    ⟨"", 1⟩ (by decide) (by decide)
  simpa using h

/-- C6 counterexample: the list `[⟨"ghost", 1⟩, ⟨"", 1⟩]` contains an entry
with an empty product reference, yet the request is rejected with status
404 (not-found for the earlier entry), not as malformed input with
status 400. -/
theorem validate_malformed_rejection_shadowed_by_not_found :
    itemWellFormed ⟨"", 1⟩ = false ∧
    (POST db0 (some "u") [⟨"ghost", 1⟩, ⟨"", 1⟩]).1.status = 404 ∧
    (POST db0 (some "u") [⟨"ghost", 1⟩, ⟨"", 1⟩]).1.status ≠ 400 := by
  refine ⟨rfl, ?_, ?_⟩ <;> decide

/-- C6 (amended): an entry with an empty product reference or a quantity
that is zero, negative, or not a positive integer causes the whole request
to be rejected as malformed input with status 400, provided the earlier
entries are all well-formed, existing, and within stock. -/
theorem validate_malformed_entry_rejected_400 (db : DB) (user : String)
    (pre rest : List CartItemPayload) (mal : CartItemPayload)
    (h : ∀ it ∈ pre, entryOK db it = true)
    (hmal : mal.product_id = "" ∨ mal.quantity.den ≠ 1 ∨ mal.quantity < 1) :
    (POST db (some user) (pre ++ mal :: rest)).1 = VResult.errInvalid ∧
    (POST db (some user) (pre ++ mal :: rest)).1.status = 400 := by
  have hwf : itemWellFormed mal = false := by
    rw [itemWellFormed]
    rcases hmal with h1 | h1 | h1
    · simp [h1]
    · simp [h1]
    · simp [not_le.mpr h1]
  have heq : (POST db (some user) (pre ++ mal :: rest)).1 = VResult.errInvalid := by
    rw [POST, if_neg (by simp [isEmpty_false])]
    rw [validateLoop_append_ok db pre (mal :: rest) 0 h]
    simp [validateLoop, hwf]
  exact ⟨heq, by rw [heq]; rfl⟩

/-- C6 witness: a zero quantity in second position (after a passing entry)
is rejected as malformed input with status 400. -/
theorem validate_malformed_entry_rejected_400_witness :
    (POST db0 (some "u") [⟨"p1", 2⟩, ⟨"p1", 0⟩]).1 = VResult.errInvalid ∧
    (POST db0 (some "u") [⟨"p1", 2⟩, ⟨"p1", 0⟩]).1.status = 400 :=
  validate_malformed_entry_rejected_400 db0 "u" [⟨"p1", 2⟩] [] ⟨"p1", 0⟩
    (by decide) (Or.inr (Or.inr (by norm_num)))

/-- C7 (confirmed): an unauthenticated request always gets the 401
authentication-required response, with no product-collection access and
hence no item processing, whatever the body contains. -/
theorem validate_unauthenticated_always_401 (db : DB) (items : List CartItemPayload) :
    POST db none items = (VResult.errAuth, []) ∧ (POST db none items).1.status = 401 :=
  ⟨rfl, rfl⟩

/-- C8 (confirmed): for every non-negative total (as arises from prices ≥ 0
and quantities ≥ 1), the validator's final rounding `roundTo2` — JS
`Math.round(total*100)/100` — rounds `total*100` to the nearest integer
half away from zero. -/
theorem roundTo2_is_round_half_away_from_zero (q : ℚ) (h : 0 ≤ q) :
    roundTo2 q = ((roundHalfAwayFromZero (q * 100) : ℤ) : ℚ) / 100 := by
  have h100 : ¬ (q * 100 < 0) := not_lt.mpr (by positivity)
  rw [roundTo2, mathRound, roundHalfAwayFromZero, if_neg h100]

/-- C8 witness: at the tie `total = 1/8` (so `total*100 = 12.5`), the
implementation's rounding agrees with half-away-from-zero. -/
theorem roundTo2_is_round_half_away_from_zero_witness :
    roundTo2 (1 / 8) = ((roundHalfAwayFromZero (1 / 8 * 100) : ℤ) : ℚ) / 100 :=
  roundTo2_is_round_half_away_from_zero (1 / 8) (by norm_num)

/-- C9 (confirmed): for every cart state, `ADD` merges into the entry for
the same product id (the first matching entry's quantity becomes the old
quantity plus the added quantity, clamped to the incoming product's stock;
with no matching entry the old quantity is 0 and a new entry is appended);
in particular adding quantity 5 of a stock-3 product to the empty cart
yields the single entry with quantity 3. -/
theorem cart_add_merges_and_clamps :
    (∀ (state : List CartItem) (product : Product) (quantity : Option ℚ),
      cartQty (reducer state (.ADD product quantity)) product.id
        = min (cartQty state product.id + quantity.getD 1) ((product.stock : ℚ))) ∧
    reducer [] (.ADD stock3Product (some 5)) = [{ product := stock3Product, quantity := 3 }] := by
  constructor
  · intro state product quantity
    cases hfind : state.find? (fun i => i.product.id == product.id) with
    | none =>
      simp only [reducer, hfind]
      rw [cartQty, List.find?_append, hfind, Option.none_or, List.find?_cons]
      simp only [beq_self_eq_true]
      rw [cartQty, hfind]
      ring_nf
    | some i0 =>
      have hpred : ((fun i : CartItem => i.product.id == product.id) ∘
          (fun i : CartItem =>
            if i.product.id == product.id then
              { i with quantity := min (i.quantity + quantity.getD 1) (product.stock : ℚ) }
            else i)) = (fun i : CartItem => i.product.id == product.id) := by
        funext i
        by_cases h : i.product.id = product.id <;> simp [h]
      have hi0 := List.find?_some hfind
      simp only [reducer, hfind]
      rw [cartQty, List.find?_map, hpred, hfind]
      rw [cartQty, hfind]
      have heq : i0.product.id = product.id := by simpa using hi0
      simp [heq]
  · simp only [reducer, List.find?_nil, List.nil_append]
    have hmin : min ((some (5 : ℚ)).getD 1) ((stock3Product.stock : ℚ)) = 3 := by
      norm_num [stock3Product, min_eq_right]
    rw [hmin]

/-- C10 (confirmed): `ADD` of a product with stock 0 that is not in the
cart appends an entry with quantity 0 (the cart does change), even though
`UPDATE_QTY` with a non-positive quantity removes the entry entirely — so a
zero-quantity entry is reachable through the public add operation. -/
theorem cart_add_zero_stock_creates_zero_quantity_entry :
    (∀ (state : List CartItem) (product : Product) (quantity : Option ℚ),
      product.stock = 0 →
      state.find? (fun i => i.product.id == product.id) = none →
      0 ≤ quantity.getD 1 →
      reducer state (.ADD product quantity)
        = state ++ [{ product := product, quantity := 0 }]) ∧
    (∀ (state : List CartItem) (productId : String) (quantity : ℚ),
      quantity ≤ 0 →
      (reducer state (.UPDATE_QTY productId quantity)).find?
          (fun i => i.product.id == productId) = none) := by
  constructor
  · intro state product quantity hstock hfind hq
    simp only [reducer, hfind, hstock]
    rw [min_eq_right (by exact_mod_cast hq)]
    norm_num
  · intro state productId quantity hq
    simp only [reducer, if_pos hq]
    rw [List.find?_eq_none]
    intro x hx
    rw [List.mem_filter] at hx
    simpa using hx.2

/-- C10 witness: adding the stock-0 product to the empty cart creates a
quantity-0 entry, while `UPDATE_QTY 0` removes the targeted entry. -/
theorem cart_add_zero_stock_creates_zero_quantity_entry_witness :
    reducer [] (.ADD zeroStockProduct none)
      = [{ product := zeroStockProduct, quantity := 0 }] ∧
    (reducer [{ product := stock3Product, quantity := 2 }]
        (.UPDATE_QTY "p3" 0)).find? (fun i => i.product.id == "p3") = none := by
  constructor
  · exact cart_add_zero_stock_creates_zero_quantity_entry.1 [] zeroStockProduct none
      rfl rfl (by norm_num)
  · exact cart_add_zero_stock_creates_zero_quantity_entry.2
      [{ product := stock3Product, quantity := 2 }] "p3" 0 le_rfl

end ShopFlow
